import Mathlib

/-!
Verification of the message-to-metric transformation engine of
`mqtt_topic_exporter` (files `mqtt_topic_exporter.py`, `mqtt-cmd.py`).

The Python code is shallowly embedded: the compiled regular expression of a
config is represented by an abstract syntax tree `Regex`, and the behaviour of
the Python `re` library functions used by the source (`re.match`, `re.sub`) is
modelled by an executable backtracking matcher with capture groups.  Stateful
classes (`TopicToMetric`, `Command`) become structures with explicit state
passing; `datetime.datetime.now()` becomes an explicit `now : Int` argument
(seconds); logging calls are dropped (they do not affect program state).
-/

namespace MqttExporter

/-- Model of a compiled Python regular expression (`re.compile` output), as an
abstract syntax tree covering the constructs used by the exporter's configs:
literal characters, character classes (possibly negated), `.`, concatenation,
alternation, greedy `*` (from which `+` and `?` derive), and numbered capture
groups. -/
inductive Regex where
  | eps : Regex
  | char : Char → Regex
  | cls : Bool → List Char → Regex
  | anyc : Regex
  | cat : Regex → Regex → Regex
  | alt : Regex → Regex → Regex
  | star : Regex → Regex
  | group : Nat → Regex → Regex
deriving Repr, DecidableEq

/-- Structural size of a pattern, used to provision matcher fuel. -/
def Regex.size : Regex → Nat
  | .eps => 1
  | .char _ => 1
  | .cls _ _ => 1
  | .anyc => 1
  | .cat r1 r2 => r1.size + r2.size + 1
  | .alt r1 r2 => r1.size + r2.size + 1
  | .star r1 => r1.size + 1
  | .group _ r1 => r1.size + 1

/-- Greedy `+` as in Python: one occurrence followed by greedy `*`. -/
def Regex.plus (r : Regex) : Regex := .cat r (.star r)

/-- Greedy `?` as in Python: prefer one occurrence, fall back to empty. -/
def Regex.opt (r : Regex) : Regex := .alt r .eps

/-- Capture groups of a match: slot `n - 1` holds the text captured by group
`n` (groups are numbered from 1 as in Python templates `\1`..`\9`). -/
abbrev Groups := List (Option String)

/-- Record the text captured by group `n` (1-based), padding with `none`. -/
def setG (g : Groups) (n : Nat) (s : String) : Groups :=
  let g2 := g ++ List.replicate (n - g.length) none
  g2.set (n - 1) (some s)

/-- Look up the text captured by group `n` (1-based). -/
def getG (g : Groups) (n : Nat) : Option String :=
  (g.getD (n - 1) none)

/-- Backtracking matcher in continuation-passing style, modelling the Python
`re` engine's leftmost/greedy strategy: alternation prefers the left branch,
`star` prefers consuming more, and a `star` iteration that consumes nothing
stops the iteration (as the Python engine does to avoid looping).  `fuel`
bounds the recursion depth (regex nesting plus `star` unrollings, each of
which consumes input); callers pass ample fuel. -/
def mat : Nat → Regex → List Char → Groups →
    (List Char → Groups → Option (List Char × Groups)) →
    Option (List Char × Groups)
  | 0, _, _, _, _ => none
  | f + 1, r, s, g, k =>
    match r with
    | .eps => k s g
    | .char c =>
      match s with
      | [] => none
      | c2 :: rest => if c2 = c then k rest g else none
    | .cls neg cs =>
      match s with
      | [] => none
      | c2 :: rest => if (cs.contains c2) = neg then none else k rest g
    | .anyc =>
      match s with
      | [] => none
      | c2 :: rest => if c2 = '\n' then none else k rest g
    | .cat r1 r2 => mat f r1 s g (fun s2 g2 => mat f r2 s2 g2 k)
    | .alt r1 r2 =>
      match mat f r1 s g k with
      | some res => some res
      | none => mat f r2 s g k
    | .star r1 =>
      match mat f r1 s g (fun s2 g2 =>
          if s2.length = s.length then none else mat f (.star r1) s2 g2 k) with
      | some res => some res
      | none => k s g
    | .group n r1 =>
      mat f r1 s g (fun s2 g2 =>
        k s2 (setG g2 n (String.mk (s.take (s.length - s2.length)))))

/-- Model of trying the pattern at position `pos` of `s` (what `re.match`
does at position 0, and what the `re.sub` scan does at each position):
returns the number of characters consumed and the capture groups, or `none`
when the pattern does not match at `pos`. -/
def pyMatchAt (r : Regex) (s : List Char) (pos : Nat) : Option (Nat × Groups) :=
  if pos > s.length then none
  else
    match mat (((s.length - pos) + 2) * (r.size + 2)) r (s.drop pos) []
        (fun rest g => some (rest, g)) with
    | some (rest, g) => some ((s.length - pos) - rest.length, g)
    | none => none

/-- Scanning loop behind `pySearchFrom`, fuelled by the number of
positions left to try. -/
def pySearchFromAux (r : Regex) (s : List Char) : Nat → Nat → Option (Nat × Nat × Groups)
  | _, 0 => none
  | pos, f + 1 =>
    if pos > s.length then none
    else
      match pyMatchAt r s pos with
      | some (c, g) => some (pos, c, g)
      | none => pySearchFromAux r s (pos + 1) f

/-- Leftmost match at or after `pos` (the scanning step of `re.sub`):
returns the match position, consumed length and groups. -/
def pySearchFrom (r : Regex) (s : List Char) (pos : Nat) :
    Option (Nat × Nat × Groups) :=
  pySearchFromAux r s pos (s.length + 1 - pos)

/-- Expansion of a Python replacement template: `\N` (single digit, the form
used by the exporter's configs) is replaced by group `N`'s captured text, a
backslash before any other character escapes it, all other characters are
literal.  A group that did not capture expands to the empty string. -/
def expandAux : List Char → Groups → List Char
  | [], _ => []
  | '\\' :: c :: rest, g =>
    if c.isDigit then
      (match getG g (c.toNat - '0'.toNat) with
       | some cap => cap.data
       | none => []) ++ expandAux rest g
    else c :: expandAux rest g
  | c :: rest, g => c :: expandAux rest g

/-- Expand a replacement template against capture groups. -/
def pyExpand (tpl : String) (g : Groups) : String :=
  String.mk (expandAux tpl.data g)

/-- One pass of the `re.sub` scanning loop (Python 3.7+ semantics): find the
leftmost match from `pos`, emit the unmatched text before it and the expanded
template; after an empty match, emit the character at the match position and
advance by one.  `fuel` bounds the iterations; each iteration advances the
position, so `s.length + 2` is ample. -/
def pySubFrom (r : Regex) (tpl : String) (s : List Char) (pos fuel : Nat) :
    String :=
  match fuel with
  | 0 => String.mk (s.drop pos)
  | f + 1 =>
    match pySearchFrom r s pos with
    | none => String.mk (s.drop pos)
    | some (i, c, g) =>
      let pre := String.mk ((s.drop pos).take (i - pos))
      let rep := pyExpand tpl g
      if c = 0 then
        match s.drop i with
        | [] => pre ++ rep
        | ch :: _ => pre ++ rep ++ String.singleton ch ++ pySubFrom r tpl s (i + 1) f
      else pre ++ rep ++ pySubFrom r tpl s (i + c) f

/-- Model of `re.sub(pattern, template, text)`: every non-overlapping match
of `pattern` in `text` is replaced by the expanded `template`; unmatched text
is preserved. -/
def pySub (r : Regex) (tpl : String) (s : String) : String :=
  pySubFrom r tpl s.data 0 (s.data.length + 2)

/-- Embedding of `TopicToMetric.match_to_template` (mqtt_topic_exporter.py,
lines 134-140): if `re.match(pattern, text)` succeeds (anchored prefix match)
return `re.sub(pattern, template, text)`, else log a warning and return
`None`. -/
def matchToTemplate (pattern : Regex) (template : String) (text : String) :
    Option String :=
  match pyMatchAt pattern text.data 0 with
  | some _ => some (pySub pattern template text)
  | none => none

/-- Python `str.strip()` whitespace characters (ASCII subset). -/
def pyIsSpace (c : Char) : Bool :=
  c = ' ' || c = '\t' || c = '\n' || c = '\r' || c = '\x0b' || c = '\x0c'

/-- Strip surrounding whitespace, as Python numeric parsing does. -/
def pyStrip (l : List Char) : List Char :=
  ((l.dropWhile pyIsSpace).reverse.dropWhile pyIsSpace).reverse

/-- ASCII lower-casing of one character. -/
def asciiLower (c : Char) : Char :=
  if 'A' ≤ c ∧ c ≤ 'Z' then Char.ofNat (c.toNat + 32) else c

/-- Strip one leading sign character, as Python numeric parsing does. -/
def stripSign : List Char → List Char
  | '+' :: r => r
  | '-' :: r => r
  | l => l

/-- Nonempty all-digit character list. -/
def isDigits (l : List Char) : Bool :=
  !l.isEmpty && l.all Char.isDigit

/-- Mantissa of a Python float literal after the sign: `d+`, `d+.`, `d+.d+`
or `.d+`, optionally followed by an exponent `e`/`E` with optional sign and
nonempty digits, or the special words `inf`, `infinity`, `nan` (any case). -/
def floatBody (l : List Char) : Bool :=
  let low := l.map asciiLower
  if low = "inf".data || low = "infinity".data || low = "nan".data then true
  else
    let sp := l.span (fun c => c != 'e' && c != 'E')
    let mantOk :=
      let sd := sp.1.span Char.isDigit
      match sd.2 with
      | [] => !sd.1.isEmpty
      | '.' :: b => (!sd.1.isEmpty || !b.isEmpty) && b.all Char.isDigit
      | _ => false
    match sp.2 with
    | [] => mantOk
    | _ :: ex => mantOk && isDigits (stripSign ex)

/-- Model of Python `float(value)` succeeding: surrounding whitespace is
stripped, then an optional sign and a float body.  (Underscore digit
separators are not modelled; the exporter's values never contain them.) -/
def pyFloatValid (s : String) : Bool :=
  floatBody (stripSign (pyStrip s.data))

/-- Model of Python `int(s)` on a string: surrounding whitespace stripped,
optional sign, nonempty decimal digits; `none` models `ValueError`. -/
def pyIntOfString (s : String) : Option Int :=
  let l := pyStrip s.data
  let mag := stripSign l
  if isDigits mag then
    let n : Int := Int.ofNat (mag.foldl (fun a c => a * 10 + (c.toNat - '0'.toNat)) 0)
    some (if l.head? = some '-' then -n else n)
  else none

/-- Embedding of the `TopicToMetricConfig` dataclass (after
`__post_init__`): `topic_payload_pattern` holds the compiled pattern. -/
structure TopicToMetricConfig where
  topic : String
  metric_name : String
  metric_type : String
  metric_help : Option String := none
  topic_payload_pattern : Regex
  labels_template : String
  value_template : String
  topic_payload_separator : String := " "
  no_activity_timeout : Option Int := none
  only_float_values : Bool := true
  status_good_topic : Option String := none
  status_good_payload : Option String := none
  status_bad_topic : Option String := none
  status_bad_payload : Option String := none
deriving Repr, DecidableEq

/-- Embedding of the `Metric` dataclass (mqtt_topic_exporter.py, lines
60-65); `last_update` defaults to the epoch (`datetime.fromtimestamp(0)`),
modelled as time 0, and `status_is_good` to `False`. -/
structure Metric where
  metric_labels : String := ""
  metric_value : String := ""
  last_update : Int := 0
  status_is_good : Bool := false
deriving Repr, DecidableEq

/-- The `processed_topics` dictionary: a Python dict preserves insertion
order and has unique keys, modelled as an association list updated in
place. -/
abbrev TopicMap := List (String × Metric)

/-- Dictionary lookup (first binding of the key). -/
def lookupTopic (m : TopicMap) (k : String) : Option Metric :=
  match m with
  | [] => none
  | (k2, v) :: rest => if k2 = k then some v else lookupTopic rest k

/-- Dictionary store: replace in place when the key exists, append
otherwise (Python dict insertion-order semantics). -/
def insertOrUpdate (m : TopicMap) (k : String) (v : Metric) : TopicMap :=
  match m with
  | [] => [(k, v)]
  | (k2, v2) :: rest =>
    if k2 = k then (k, v) :: rest else (k2, v2) :: insertOrUpdate rest k v

/-- Embedding of a `TopicToMetric` instance: its config and its
`processed_topics` dictionary (`defaultdict(Metric)`, starting empty). -/
structure TopicToMetric where
  conf : TopicToMetricConfig
  processed_topics : TopicMap := []
deriving Repr, DecidableEq

/-- A fresh `TopicToMetric` as built by `__init__`. -/
def initTTM (conf : TopicToMetricConfig) : TopicToMetric :=
  { conf := conf, processed_topics := [] }

/-- Embedding of `TopicToMetric._valid_metric_value` (lines 96-103): `True`
when `only_float_values` is off, otherwise whether `float(value)` parses. -/
def validMetricValue (conf : TopicToMetricConfig) (value : String) : Bool :=
  !conf.only_float_values || pyFloatValid value

/-- The body line `f'{metric_name}{{{labels}}} {value}\n'` emitted for a
rendered record (line 93). -/
def bodyLine (conf : TopicToMetricConfig) (m : Metric) : String :=
  conf.metric_name ++ "\x7b" ++ m.metric_labels ++ "\x7d " ++ m.metric_value ++ "\n"

/-- One iteration of the `_render_metric_text` loop (lines 84-93) for a
single record: skip (empty string) when the staleness filter or the status
gate rejects it, else emit its body line.  `now` models
`datetime.datetime.now()`, in seconds. -/
def renderOne (conf : TopicToMetricConfig) (now : Int) (m : Metric) : String :=
  if (match conf.no_activity_timeout with
      | some t => decide (now - m.last_update > t)
      | none => false) then ""
  else if !m.status_is_good then ""
  else bodyLine conf m

/-- `''.join` of a list of strings. -/
def strJoin : List String → String
  | [] => ""
  | s :: rest => s ++ strJoin rest

/-- Embedding of `TopicToMetric._render_metric_text` (lines 81-94). -/
def renderMetricText (t : TopicToMetric) (now : Int) : String :=
  strJoin (t.processed_topics.map (fun p => renderOne t.conf now p.2))

/-- Python truthiness of an optional string (`if conf.metric_help:`):
`None` and the empty string are falsy. -/
def truthyOpt : Option String → Bool
  | some s => !s.isEmpty
  | none => false

/-- Embedding of `TopicToMetric._render_metric_header` (lines 74-79). -/
def renderMetricHeader (conf : TopicToMetricConfig) : String :=
  let header := "#TYPE " ++ conf.metric_name ++ " " ++ conf.metric_type ++ "\n"
  if truthyOpt conf.metric_help then
    header ++ "#HELP " ++ conf.metric_name ++ " " ++ conf.metric_help.getD "" ++ "\n"
  else header

/-- Embedding of `TopicToMetric.get_metric_text` (lines 105-110): empty body
suppresses the header. -/
def getMetricText (t : TopicToMetric) (now : Int) : String :=
  let text := renderMetricText t now
  if text = "" then "" else renderMetricHeader t.conf ++ text

/-- Embedding of `TopicToMetric.on_message` (lines 112-132).  When both
template extractions succeed the record for `topic` is fetched (or default
constructed, `defaultdict`) and mutated: `last_update := now`, the status
gate is forced on when no `status_good_topic` is configured, and labels and
value are stored.  Note the source checks `_valid_metric_value` but only
logs on failure: the non-float value is stored regardless. -/
def onMessage (t : TopicToMetric) (now : Int) (topic payload : String) :
    TopicToMetric :=
  match matchToTemplate t.conf.topic_payload_pattern t.conf.labels_template
          (topic ++ t.conf.topic_payload_separator ++ payload),
        matchToTemplate t.conf.topic_payload_pattern t.conf.value_template
          (topic ++ t.conf.topic_payload_separator ++ payload) with
  | some ls, some v =>
    let prev := (lookupTopic t.processed_topics topic).getD {}
    let updated : Metric :=
      { prev with
          last_update := now,
          status_is_good :=
            if t.conf.status_good_topic.isNone then true
            else prev.status_is_good,
          metric_labels := ls,
          metric_value := v }
    { t with processed_topics := insertOrUpdate t.processed_topics topic updated }
  | _, _ => t

/-- Embedding of `TopicToMetric._set_status` (lines 142-147): set the gate
bit on every held record (the `!=` test in the source only guards the log
line). -/
def setStatus (t : TopicToMetric) (is_good : Bool) : TopicToMetric :=
  { t with processed_topics :=
      t.processed_topics.map (fun p => (p.1, { p.2 with status_is_good := is_good })) }

/-- Embedding of `TopicToMetric.on_status_good` (lines 149-151): Python's
`self.conf.status_good_payload == payload` is false when the configured
payload is `None` (payloads are strings). -/
def onStatusGood (t : TopicToMetric) (_topic payload : String) : TopicToMetric :=
  match t.conf.status_good_payload with
  | some gp => if gp = payload then setStatus t true else t
  | none => t

/-- Embedding of `TopicToMetric.on_status_bad` (lines 153-155). -/
def onStatusBad (t : TopicToMetric) (_topic payload : String) : TopicToMetric :=
  match t.conf.status_bad_payload with
  | some bp => if bp = payload then setStatus t false else t
  | none => t

/-- Events consumed by one Transformer: a data message on its topic (with
the reception time) or a message on its status-good / status-bad topic. -/
inductive MetricEv where
  | msg (topic payload : String) (now : Int)
  | statusGood (topic payload : String)
  | statusBad (topic payload : String)
deriving Repr, DecidableEq

/-- Dispatch of one event to the Transformer's handler, as the router's
callbacks do (mqtt_topic_exporter.py, lines 270-283). -/
def stepEv (t : TopicToMetric) : MetricEv → TopicToMetric
  | .msg topic payload now => onMessage t now topic payload
  | .statusGood topic payload => onStatusGood t topic payload
  | .statusBad topic payload => onStatusBad t topic payload

/-- Run a sequence of events from a state. -/
def runEvs (t : TopicToMetric) (evs : List MetricEv) : TopicToMetric :=
  evs.foldl stepEv t

/-- Embedding of the `Command` Action of mqtt-cmd.py (lines 26-49): the
configured topic, payload pattern and command string. -/
structure Command where
  topic : String
  payload : Regex
  cmd : String

/-- Mutable state of a `Command`: `self.subprocess` is `None` until the
first spawn, afterwards a handle to the last spawned process, modelled by
its process id. -/
structure CommandState where
  subprocess : Option Nat := none
deriving Repr, DecidableEq

/-- Embedding of `Command._run_subprocess` (mqtt-cmd.py, lines 45-49).
`alive pid = true` models `poll()` returning `None` (process still
running).  Returns the new state and whether a process was spawned;
`freshPid` is the id the spawned process would get.  The spawn is
`Popen` — the caller does not wait. -/
def runSub (st : CommandState) (alive : Nat → Bool) (freshPid : Nat) :
    CommandState × Bool :=
  match st.subprocess with
  | none => ({ subprocess := some freshPid }, true)
  | some pid =>
    if alive pid then (st, false)
    else ({ subprocess := some freshPid }, true)

/-- Embedding of `Command.on_message` (mqtt-cmd.py, lines 34-41): run the
command only when the payload matches the configured pattern
(`re.match`). -/
def cmdOnMessage (c : Command) (st : CommandState) (alive : Nat → Bool)
    (freshPid : Nat) (_topic payload : String) : CommandState × Bool :=
  if (pyMatchAt c.payload payload.data 0).isSome then runSub st alive freshPid
  else (st, false)

/-- Events seen by one `Command` instance: an inbound MQTT message, or the
exit of one of its spawned child processes. -/
inductive CmdEv where
  | msg (topic payload : String)
  | procExit (pid : Nat)
deriving Repr, DecidableEq

/-- World of one `Command` instance: its state, the ids of its spawned and
not-yet-exited child processes, and a fresh-pid counter. -/
structure CmdWorld where
  st : CommandState := {}
  running : List Nat := []
  nextPid : Nat := 0
deriving Repr, DecidableEq

/-- Operational step: a message is dispatched to `cmdOnMessage` with
`poll()` answered from the set of running processes (a spawned process is
added to it); a process exit removes the process. -/
def cmdStep (c : Command) (w : CmdWorld) : CmdEv → CmdWorld
  | .msg topic payload =>
    match cmdOnMessage c w.st (fun p => w.running.contains p) w.nextPid topic payload with
    | (st2, true) =>
      { st := st2, running := w.nextPid :: w.running, nextPid := w.nextPid + 1 }
    | (st2, false) => { w with st := st2 }
  | .procExit p => { w with running := w.running.erase p }

/-- Run a `Command` instance from its initial world over a trace. -/
def cmdRun (c : Command) (evs : List CmdEv) : CmdWorld :=
  evs.foldl (cmdStep c) {}

/-- Embedding of `TryParse.timeout` (mqtt_topic_exporter.py, lines
160-169): `int(seconds)` then a non-negativity check; `Except.error`
models the raised `ValueError`. -/
def tryParseTimeout (seconds : String) : Except String Int :=
  match pyIntOfString seconds with
  | none => .error ("non-integer time interval: " ++ seconds)
  | some s => if s ≥ 0 then .ok s else .error ("negative time value " ++ seconds)

/-- Embedding of `TryParse.port` (lines 178-187): `int(port)` then the
range check `1 <= p <= 0xFFFF`. -/
def tryParsePort (port : String) : Except String Int :=
  match pyIntOfString port with
  | none => .error ("port number must be an integer, got " ++ port)
  | some p =>
    if 1 ≤ p ∧ p ≤ 65535 then .ok p
    else .error ("port value not in valid port range " ++ port)

/-- Embedding of `TryParse.regexp` (lines 171-176), parameterised by the
`re.compile` oracle (`compile s = none` models `re.error`). -/
def tryParseRegexp (compile : String → Option Regex) (text : String) :
    Except String Regex :=
  match compile text with
  | some r => .ok r
  | none => .error ("invalid regexp " ++ text)

/-- Embedding of `TopicToMetricConfig.__post_init__` (lines 54-57): compile
the pattern, then validate `no_activity_timeout` when present; the first
`ValueError` aborts construction. -/
def postInit (compile : String → Option Regex) (pattern : String)
    (timeout_opt : Option String) : Except String (Regex × Option Int) :=
  match tryParseRegexp compile pattern with
  | .error e => .error e
  | .ok r =>
    match timeout_opt with
    | none => .ok (r, none)
    | some s =>
      match tryParseTimeout s with
      | .error e => .error e
      | .ok n => .ok (r, some n)

/-- Whether an `Except` computation succeeded (no exception raised). -/
def isOkE {α : Type} (e : Except String α) : Bool :=
  match e with
  | .ok _ => true
  | .error _ => false

/-- The conjunction of the two visibility filters applied by
`_render_metric_text`: not stale and gate open. -/
def survives (conf : TopicToMetricConfig) (now : Int) (m : Metric) : Bool :=
  !(match conf.no_activity_timeout with
    | some t => decide (now - m.last_update > t)
    | none => false) && m.status_is_good

/-- A topic map with every gate bit blanked out, used to state that an
operation can change nothing but the gate bits. -/
def clearGate (m : TopicMap) : TopicMap :=
  m.map (fun p => (p.1, { p.2 with status_is_good := false }))

/-- Invariant tying a `Command`'s stored handle to its live children: any
running child is the one the stored handle points to. -/
def cmdInv (w : CmdWorld) : Prop :=
  match w.st.subprocess with
  | none => w.running = []
  | some q => w.running = [] ∨ w.running = [q]

/-- Example pattern `t (.*)` used by concrete witnesses. -/
def exPat : Regex := .cat (.char 't') (.cat (.char ' ') (.group 1 (.star .anyc)))

/-- Example Transformer config used by concrete witnesses. -/
def exConf : TopicToMetricConfig :=
  { topic := "t", metric_name := "m", metric_type := "gauge",
    topic_payload_pattern := exPat,
    labels_template := "v=\"\\1\"", value_template := "\\1" }

/-- Example config with status gating configured, used by concrete
witnesses. -/
def exConfGated : TopicToMetricConfig :=
  { exConf with
    status_good_topic := some "s", status_good_payload := some "on",
    status_bad_topic := some "s", status_bad_payload := some "off" }

theorem string_mk_nil : String.mk [] = "" := rfl

theorem string_append_eq_empty_iff (a b : String) :
    a ++ b = "" ↔ a = "" ∧ b = "" := by
  constructor
  · intro h
    have h2 := congrArg String.data h
    simp at h2
    exact ⟨String.ext h2.1, String.ext h2.2⟩
  · rintro ⟨rfl, rfl⟩; rfl

theorem bodyLine_ne_empty (conf : TopicToMetricConfig) (m : Metric) :
    bodyLine conf m ≠ "" := by
  intro h
  have h2 := congrArg String.data h
  simp [bodyLine] at h2

theorem strJoin_eq_empty_iff (l : List String) :
    strJoin l = "" ↔ ∀ s ∈ l, s = "" := by
  induction l with
  | nil => simp [strJoin]
  | cons a l ih => simp [strJoin, string_append_eq_empty_iff, ih]

theorem strJoin_all_empty (l : List String) (h : ∀ s ∈ l, s = "") :
    strJoin l = "" := (strJoin_eq_empty_iff l).mpr h

theorem lookup_insertOrUpdate_self (m : TopicMap) (k : String) (v : Metric) :
    lookupTopic (insertOrUpdate m k v) k = some v := by
  induction m with
  | nil => simp [insertOrUpdate, lookupTopic]
  | cons p rest ih =>
    obtain ⟨k2, v2⟩ := p
    by_cases h : k2 = k
    · simp [insertOrUpdate, h, lookupTopic]
    · simp [insertOrUpdate, h, lookupTopic, ih]

theorem lookup_insertOrUpdate_ne (m : TopicMap) (k k3 : String) (v : Metric)
    (h : k3 ≠ k) :
    lookupTopic (insertOrUpdate m k v) k3 = lookupTopic m k3 := by
  induction m with
  | nil => simp [insertOrUpdate, lookupTopic, Ne.symm h]
  | cons p rest ih =>
    obtain ⟨k2, v2⟩ := p
    by_cases h2 : k2 = k
    · subst h2
      simp [insertOrUpdate, lookupTopic, Ne.symm h]
    · simp only [insertOrUpdate, if_neg h2, lookupTopic]
      by_cases h3 : k2 = k3 <;> simp [h3, ih]

theorem mem_insertOrUpdate (m : TopicMap) (k : String) (v : Metric) :
    ∀ p ∈ insertOrUpdate m k v, p = (k, v) ∨ p ∈ m := by
  induction m with
  | nil => intro p h; simpa [insertOrUpdate] using h
  | cons q rest ih =>
    obtain ⟨k2, v2⟩ := q
    intro p h
    by_cases h2 : k2 = k
    · simp only [insertOrUpdate, if_pos h2, List.mem_cons] at h
      rcases h with h | h
      · exact Or.inl h
      · exact Or.inr (List.mem_cons_of_mem _ h)
    · simp only [insertOrUpdate, if_neg h2, List.mem_cons] at h
      rcases h with h | h
      · exact Or.inr (by simp [h])
      · rcases ih p h with h3 | h3
        · exact Or.inl h3
        · exact Or.inr (List.mem_cons_of_mem _ h3)

theorem lookupTopic_mem (m : TopicMap) (k : String) (v : Metric) :
    lookupTopic m k = some v → (k, v) ∈ m := by
  induction m with
  | nil => intro h; simp [lookupTopic] at h
  | cons q rest ih =>
    obtain ⟨k2, v2⟩ := q
    intro h
    by_cases h2 : k2 = k
    · subst h2
      simp [lookupTopic] at h
      simp [h]
    · simp only [lookupTopic, if_neg h2] at h
      exact List.mem_cons_of_mem _ (ih h)

theorem renderOne_eq_if (conf : TopicToMetricConfig) (now : Int) (m : Metric) :
    renderOne conf now m =
      if survives conf now m then bodyLine conf m else "" := by
  unfold renderOne survives
  cases hst : (match conf.no_activity_timeout with
    | some t => decide (now - m.last_update > t)
    | none => false) with
  | true => simp
  | false => cases hg : m.status_is_good <;> simp

theorem renderOne_gate_false (conf : TopicToMetricConfig) (now : Int)
    (m : Metric) (h : m.status_is_good = false) :
    renderOne conf now m = "" := by
  rw [renderOne_eq_if]
  simp [survives, h]

/-- C3: when the combined topic+separator+payload text matches the pattern
under both the labels template and the value template, `on_message` creates
or overwrites the record for that concrete topic (last-write-wins), storing
the extracted labels and value, setting `last_update` to the current time,
and forcing `status_is_good = true` when no `status_good_topic` is
configured; records of other topics are untouched. -/
theorem on_message_match_updates (t : TopicToMetric) (now : Int)
    (topic payload ls v : String)
    (hl : matchToTemplate t.conf.topic_payload_pattern t.conf.labels_template
            (topic ++ t.conf.topic_payload_separator ++ payload) = some ls)
    (hv : matchToTemplate t.conf.topic_payload_pattern t.conf.value_template
            (topic ++ t.conf.topic_payload_separator ++ payload) = some v) :
    (∃ m2 : Metric,
       lookupTopic (onMessage t now topic payload).processed_topics topic = some m2 ∧
       m2.metric_labels = ls ∧ m2.metric_value = v ∧ m2.last_update = now ∧
       (t.conf.status_good_topic = none → m2.status_is_good = true)) ∧
    (∀ k, k ≠ topic →
       lookupTopic (onMessage t now topic payload).processed_topics k =
         lookupTopic t.processed_topics k) ∧
    (onMessage t now topic payload).conf = t.conf := by
  simp only [onMessage, hl, hv]
  refine ⟨⟨_, lookup_insertOrUpdate_self _ _ _, rfl, rfl, rfl, ?_⟩, ?_, trivial⟩
  · intro h
    simp [h]
  · intro k hk
    exact lookup_insertOrUpdate_ne _ _ _ _ hk

/-- C3 witness: a first message on topic `t` with payload `1` creates the
record with the extracted labels and value, timestamp 5 and an open gate. -/
theorem on_message_match_updates_witness :
    (∃ m2 : Metric,
       lookupTopic (onMessage (initTTM exConf) 5 "t" "1").processed_topics "t" = some m2 ∧
       m2.metric_labels = "v=\"1\"" ∧ m2.metric_value = "1" ∧ m2.last_update = 5 ∧
       ((initTTM exConf).conf.status_good_topic = none → m2.status_is_good = true)) ∧
    (∀ k, k ≠ "t" →
       lookupTopic (onMessage (initTTM exConf) 5 "t" "1").processed_topics k =
         lookupTopic (initTTM exConf).processed_topics k) ∧
    (onMessage (initTTM exConf) 5 "t" "1").conf = (initTTM exConf).conf :=
  on_message_match_updates (initTTM exConf) 5 "t" "1" "v=\"1\"" "1"
    (by decide) (by decide)

/-- C4: a message for which the labels extraction or the value extraction
fails mutates no state at all: `on_message` returns the Transformer
unchanged, so the records map keeps the same keys and every record keeps
its fields. -/
theorem on_message_no_match_frame (t : TopicToMetric) (now : Int)
    (topic payload : String)
    (h : matchToTemplate t.conf.topic_payload_pattern t.conf.labels_template
           (topic ++ t.conf.topic_payload_separator ++ payload) = none ∨
         matchToTemplate t.conf.topic_payload_pattern t.conf.value_template
           (topic ++ t.conf.topic_payload_separator ++ payload) = none) :
    onMessage t now topic payload = t := by
  cases hl : matchToTemplate t.conf.topic_payload_pattern t.conf.labels_template
      (topic ++ t.conf.topic_payload_separator ++ payload) with
  | none => simp [onMessage, hl]
  | some ls =>
    cases hv : matchToTemplate t.conf.topic_payload_pattern t.conf.value_template
        (topic ++ t.conf.topic_payload_separator ++ payload) with
    | none => simp [onMessage, hl, hv]
    | some v =>
      rcases h with h | h
      · rw [hl] at h; exact absurd h (by simp)
      · rw [hv] at h; exact absurd h (by simp)

/-- C4 witness: a message on topic `b` does not match the pattern `t (.*)`
(which requires the text to start with `t`), and the state, here holding a
prior record, is returned unchanged. -/
theorem on_message_no_match_frame_witness :
    onMessage (onMessage (initTTM exConf) 5 "t" "1") 9 "b" "x" =
      onMessage (initTTM exConf) 5 "t" "1" :=
  on_message_no_match_frame _ 9 "b" "x" (Or.inl (by decide))

/-- C6: with `no_activity_timeout = T` configured and the status gate open,
the record's body line is suppressed exactly when `now - last_update`
exceeds `T` strictly; at `now - last_update = T` the line is still emitted,
and a single-record Transformer renders exactly that per-record result. -/
theorem staleness_boundary (conf : TopicToMetricConfig) (now tmo : Int)
    (m : Metric) (hT : conf.no_activity_timeout = some tmo)
    (hg : m.status_is_good = true) :
    (renderOne conf now m = "" ↔ now - m.last_update > tmo) ∧
    (now - m.last_update ≤ tmo → renderOne conf now m = bodyLine conf m) ∧
    (∀ tp, renderMetricText ⟨conf, [(tp, m)]⟩ now = renderOne conf now m) := by
  refine ⟨?_, ?_, ?_⟩
  · rw [renderOne_eq_if]
    by_cases h : now - m.last_update > tmo
    · simp [survives, hT, hg, h]
    · simp [survives, hT, hg, h, bodyLine_ne_empty]
  · intro h
    rw [renderOne_eq_if]
    simp [survives, hT, hg, not_lt.mpr h]
  · intro tp
    simp [renderMetricText, strJoin]

/-- C6 witness: with a 60-second timeout, a record fresh at time 0 and an
open gate is rendered at time 60 (the boundary) and suppressed at time
3600. -/
theorem staleness_boundary_witness :
    (renderOne { exConf with no_activity_timeout := some 60 } 60
        { metric_labels := "l", metric_value := "1", last_update := 0,
          status_is_good := true } = "" ↔ (60 : Int) - 0 > 60) ∧
    (renderOne { exConf with no_activity_timeout := some 60 } 3600
        { metric_labels := "l", metric_value := "1", last_update := 0,
          status_is_good := true } = "" ↔ (3600 : Int) - 0 > 60) := by
  constructor
  · exact (staleness_boundary _ 60 60 _ rfl rfl).1
  · exact (staleness_boundary _ 3600 60 _ rfl rfl).1

theorem clearGate_map_set (l : TopicMap) (b : Bool) :
    clearGate (l.map (fun p => (p.1, { p.2 with status_is_good := b }))) =
      clearGate l := by
  induction l with
  | nil => rfl
  | cons p rest ih => simp only [clearGate, List.map_cons] at ih ⊢; rw [ih]

/-- C10: the status handlers change at most the gate bit: the topic map
keeps the same keys in the same order and every record keeps its labels,
value and `last_update` (stated via `clearGate`, which blanks only the gate
bit); the config is untouched; and when the corresponding configured status
payload is absent or differs from the received payload, the call is a
complete no-op. -/
theorem status_handlers_frame (t : TopicToMetric) (tp pl : String) :
    clearGate (onStatusGood t tp pl).processed_topics = clearGate t.processed_topics ∧
    clearGate (onStatusBad t tp pl).processed_topics = clearGate t.processed_topics ∧
    (onStatusGood t tp pl).conf = t.conf ∧
    (onStatusBad t tp pl).conf = t.conf ∧
    (t.conf.status_good_payload = none → onStatusGood t tp pl = t) ∧
    (∀ gp, t.conf.status_good_payload = some gp → gp ≠ pl →
       onStatusGood t tp pl = t) ∧
    (t.conf.status_bad_payload = none → onStatusBad t tp pl = t) ∧
    (∀ bp, t.conf.status_bad_payload = some bp → bp ≠ pl →
       onStatusBad t tp pl = t) := by
  have hgood : clearGate (onStatusGood t tp pl).processed_topics =
      clearGate t.processed_topics ∧ (onStatusGood t tp pl).conf = t.conf := by
    unfold onStatusGood
    cases hgp : t.conf.status_good_payload with
    | none => exact ⟨rfl, rfl⟩
    | some gp =>
      by_cases h : gp = pl
      · simp only [if_pos h, setStatus]
        exact ⟨clearGate_map_set _ _, trivial⟩
      · simp [h]
  have hbad : clearGate (onStatusBad t tp pl).processed_topics =
      clearGate t.processed_topics ∧ (onStatusBad t tp pl).conf = t.conf := by
    unfold onStatusBad
    cases hbp : t.conf.status_bad_payload with
    | none => exact ⟨rfl, rfl⟩
    | some bp =>
      by_cases h : bp = pl
      · simp only [if_pos h, setStatus]
        exact ⟨clearGate_map_set _ _, trivial⟩
      · simp [h]
  refine ⟨hgood.1, hbad.1, hgood.2, hbad.2, ?_, ?_, ?_, ?_⟩
  · intro h; simp [onStatusGood, h]
  · intro gp h hne; simp [onStatusGood, h, hne]
  · intro h; simp [onStatusBad, h]
  · intro bp h hne; simp [onStatusBad, h, hne]

/-- C10 witness: with good payload configured as `on`, receiving `off` on
the status-good topic is a complete no-op on a Transformer holding one
record. -/
theorem status_handlers_frame_witness :
    onStatusGood
      { conf := { exConf with status_good_payload := some "on" },
        processed_topics := [("t", {})] } "s" "off" =
      { conf := { exConf with status_good_payload := some "on" },
        processed_topics := [("t", {})] } :=
  (status_handlers_frame _ "s" "off").2.2.2.2.2.1 "on" rfl (by decide)

end MqttExporter





namespace MqttExporter

theorem renderOne_eq_empty_iff (conf : TopicToMetricConfig) (now : Int)
    (m : Metric) :
    renderOne conf now m = "" ↔ survives conf now m = false := by
  rw [renderOne_eq_if]
  cases h : survives conf now m with
  | true => simp [bodyLine_ne_empty]
  | false => simp

theorem renderMetricText_eq_empty_iff (t : TopicToMetric) (now : Int) :
    renderMetricText t now = "" ↔
      ∀ p ∈ t.processed_topics, survives t.conf now p.2 = false := by
  unfold renderMetricText
  rw [strJoin_eq_empty_iff]
  constructor
  · intro h p hp
    exact (renderOne_eq_empty_iff _ _ _).mp (h _ (List.mem_map_of_mem _ hp))
  · intro h s hs
    rcases List.mem_map.mp hs with ⟨p, hp, rfl⟩
    exact (renderOne_eq_empty_iff _ _ _).mpr (h p hp)

theorem getMetricText_eq_empty_iff (t : TopicToMetric) (now : Int) :
    getMetricText t now = "" ↔ renderMetricText t now = "" := by
  unfold getMetricText
  by_cases h : renderMetricText t now = ""
  · simp [h]
  · simp [h, string_append_eq_empty_iff]

end MqttExporter

namespace MqttExporter

/-- C1 (code bug): with `only_float_values = true` (the default), the value
`ON` extracted from payload `ON` fails the code's own float-validity check
`_valid_metric_value`, and the record is indeed retained in the map — but
`on_message` stores the non-float value anyway (the check only guards a log
line, lines 124-125) and `_render_metric_text` applies no numeric-validity
filter, so the scrape output contains a body line with value `ON`,
contradicting the claim that a non-numeric value never produces a body
line. -/
theorem non_float_value_rendered :
    exConf.only_float_values = true ∧
    validMetricValue exConf "ON" = false ∧
    (onMessage (initTTM exConf) 5 "t" "ON").processed_topics =
      [("t", { metric_labels := "v=\"ON\"", metric_value := "ON",
               last_update := 5, status_is_good := true })] ∧
    getMetricText (onMessage (initTTM exConf) 5 "t" "ON") 5 =
      "#TYPE m gauge\nm\x7bv=\"ON\"\x7d ON\n" := by
  refine ⟨rfl, by decide, by decide, by decide⟩

/-- C5: `render()` returns the empty string exactly when zero records pass
the two visibility filters applied by the code (in particular, before any
message the map is empty and the result is empty); when at least one record
passes, the output is the header block — one `#TYPE` line, plus a `#HELP`
line iff `metric_help` is non-empty — prepended exactly once to the body,
which holds one line per surviving record. -/
theorem render_empty_iff_and_header (conf : TopicToMetricConfig)
    (t : TopicToMetric) (now : Int) :
    (getMetricText (initTTM conf) now = "") ∧
    (getMetricText t now = "" ↔
       ∀ p ∈ t.processed_topics, survives t.conf now p.2 = false) ∧
    ((∃ p ∈ t.processed_topics, survives t.conf now p.2 = true) →
       getMetricText t now = renderMetricHeader t.conf ++ renderMetricText t now) ∧
    (renderMetricText t now =
       strJoin (t.processed_topics.map
         (fun p => if survives t.conf now p.2 then bodyLine t.conf p.2 else ""))) ∧
    (truthyOpt conf.metric_help = false →
       renderMetricHeader conf =
         "#TYPE " ++ conf.metric_name ++ " " ++ conf.metric_type ++ "\n") ∧
    (∀ hlp, conf.metric_help = some hlp → hlp ≠ "" →
       renderMetricHeader conf =
         "#TYPE " ++ conf.metric_name ++ " " ++ conf.metric_type ++ "\n" ++
           "#HELP " ++ conf.metric_name ++ " " ++ hlp ++ "\n") := by
  refine ⟨?_, ?_, ?_, ?_, ?_, ?_⟩
  · simp [getMetricText, renderMetricText, initTTM, strJoin]
  · rw [getMetricText_eq_empty_iff]
    exact renderMetricText_eq_empty_iff t now
  · rintro ⟨p, hp, hs⟩
    have hne : renderMetricText t now ≠ "" := by
      intro h
      have := (renderMetricText_eq_empty_iff t now).mp h p hp
      rw [hs] at this
      cases this
    unfold getMetricText
    simp [hne]
  · unfold renderMetricText
    simp only [renderOne_eq_if]
  · intro h
    simp [renderMetricHeader, h]
  · intro hlp h hne
    have h2 : hlp.isEmpty = false := by
      rw [Bool.eq_false_iff]
      intro h3
      exact hne ((String.isEmpty_iff _).mp h3)
    simp [renderMetricHeader, truthyOpt, h, h2]

/-- C5 witness: before any message the output is empty, and after one valid
message the output is the header block followed by the body. -/
theorem render_empty_iff_and_header_witness :
    (getMetricText (initTTM exConf) 5 = "") ∧
    getMetricText (onMessage (initTTM exConf) 5 "t" "1") 5 =
      renderMetricHeader (onMessage (initTTM exConf) 5 "t" "1").conf ++
        renderMetricText (onMessage (initTTM exConf) 5 "t" "1") 5 := by
  constructor
  · exact (render_empty_iff_and_header exConf (initTTM exConf) 5).1
  · exact (render_empty_iff_and_header exConf (onMessage (initTTM exConf) 5 "t" "1") 5).2.2.1
      (by decide)

/-- C9: `TopicToMetricConfig.__post_init__` raises exactly when the pattern
does not compile or the optional `no_activity_timeout` does not parse as a
non-negative integer; `TryParse.port` accepts exactly the strings denoting
integers 1 through 65535 and raises on everything else. -/
theorem config_validation (compile : String → Option Regex) (pattern : String)
    (timeout_opt : Option String) (s : String) :
    (isOkE (postInit compile pattern timeout_opt) = true ↔
       (∃ r, compile pattern = some r) ∧
       (timeout_opt = none ∨
        ∃ sec n, timeout_opt = some sec ∧ pyIntOfString sec = some n ∧ 0 ≤ n)) ∧
    (∀ p : Int, tryParsePort s = .ok p ↔
       (pyIntOfString s = some p ∧ 1 ≤ p ∧ p ≤ 65535)) ∧
    (isOkE (tryParsePort s) = true ↔
       ∃ p : Int, pyIntOfString s = some p ∧ 1 ≤ p ∧ p ≤ 65535) := by
  refine ⟨?_, ?_, ?_⟩
  · unfold postInit tryParseRegexp tryParseTimeout
    cases hc : compile pattern with
    | none => simp [isOkE, hc]
    | some r =>
      cases timeout_opt with
      | none => simp [isOkE, hc]
      | some sec =>
        cases hp : pyIntOfString sec with
        | none => simp [isOkE, hc, hp]
        | some n =>
          by_cases hn : n ≥ 0 <;> simp [isOkE, hc, hp, hn]
  · intro p
    unfold tryParsePort
    cases hp : pyIntOfString s with
    | none => simp [hp]
    | some q =>
      by_cases hq : 1 ≤ q ∧ q ≤ 65535
      · simp only [if_pos hq]
        constructor
        · intro h
          cases h
          exact ⟨rfl, hq⟩
        · rintro ⟨h, _⟩
          cases h
          rfl
      · simp only [if_neg hq]
        constructor
        · intro h
          cases h
        · rintro ⟨h, h2⟩
          cases h
          exact absurd h2 hq
  · unfold tryParsePort
    cases hp : pyIntOfString s with
    | none => simp [isOkE, hp]
    | some q =>
      by_cases hq : 1 ≤ q ∧ q ≤ 65535
      · simp [isOkE, if_pos hq, hp, hq]
      · simp [isOkE, if_neg hq, hp]
        intro h1
        rcases not_and_or.mp hq with h2 | h2 <;> omega

/-- C9 witness: the default exporter port 8840 is accepted, the string `0`
is rejected, and a config whose pattern compiles and whose timeout is `120`
constructs successfully. -/
theorem config_validation_witness :
    isOkE (tryParsePort "8840") = true ∧
    isOkE (tryParsePort "0") = false ∧
    isOkE (postInit (fun _ => some .eps) "x" (some "120")) = true := by
  refine ⟨?_, ?_, ?_⟩
  · exact (config_validation (fun _ => some .eps) "x" none "8840").2.2.mpr
      ⟨8840, by decide, by decide, by decide⟩
  · have h := (config_validation (fun _ => some .eps) "x" none "0").2.2
    cases hv : isOkE (tryParsePort "0") with
    | false => rfl
    | true =>
      rcases h.mp hv with ⟨p, hp, h1, h2⟩
      rw [show pyIntOfString "0" = some 0 from by decide] at hp
      cases hp
      omega
  · exact (config_validation (fun _ => some .eps) "x" (some "120") "8840").1.mpr
      ⟨⟨.eps, rfl⟩, Or.inr ⟨"120", 120, rfl, by decide, by decide⟩⟩

end MqttExporter


namespace MqttExporter

theorem onStatusGood_eq_of_match (t : TopicToMetric) (tp pl : String)
    (h : t.conf.status_good_payload = some pl) :
    onStatusGood t tp pl = setStatus t true := by
  unfold onStatusGood
  rw [h]
  simp

theorem onStatusBad_eq_of_match (t : TopicToMetric) (tp pl : String)
    (h : t.conf.status_bad_payload = some pl) :
    onStatusBad t tp pl = setStatus t false := by
  unfold onStatusBad
  rw [h]
  simp

theorem mem_setStatus_gate (t : TopicToMetric) (b : Bool) :
    ∀ p ∈ (setStatus t b).processed_topics, p.2.status_is_good = b := by
  intro p hp
  simp only [setStatus] at hp
  rcases List.mem_map.mp hp with ⟨q, _, rfl⟩
  rfl

theorem gate_false_preserved (conf : TopicToMetricConfig)
    (hg : conf.status_good_topic.isSome = true) :
    ∀ (evs : List MetricEv) (t : TopicToMetric), t.conf = conf →
      (∀ p ∈ t.processed_topics, p.2.status_is_good = false) →
      (∀ tp2 pl2, MetricEv.statusGood tp2 pl2 ∈ evs →
         conf.status_good_payload ≠ some pl2) →
      (runEvs t evs).conf = conf ∧
      ∀ p ∈ (runEvs t evs).processed_topics, p.2.status_is_good = false := by
  intro evs
  induction evs with
  | nil => intro t ht hall _; exact ⟨ht, hall⟩
  | cons e rest ih =>
    intro t ht hall hev
    have hstep : (stepEv t e).conf = conf ∧
        ∀ p ∈ (stepEv t e).processed_topics, p.2.status_is_good = false := by
      cases e with
      | msg topic payload now =>
        simp only [stepEv]
        cases hl : matchToTemplate t.conf.topic_payload_pattern t.conf.labels_template
            (topic ++ t.conf.topic_payload_separator ++ payload) with
        | none =>
          simp only [onMessage, hl]
          exact ⟨ht, hall⟩
        | some ls =>
          cases hv : matchToTemplate t.conf.topic_payload_pattern t.conf.value_template
              (topic ++ t.conf.topic_payload_separator ++ payload) with
          | none =>
            simp only [onMessage, hl, hv]
            exact ⟨ht, hall⟩
          | some v =>
            simp only [onMessage, hl, hv]
            refine ⟨ht, ?_⟩
            intro p hp
            rcases mem_insertOrUpdate _ _ _ p hp with h | h
            · subst h
              have hnone : t.conf.status_good_topic.isNone = false := by
                rw [ht]
                cases hgt : conf.status_good_topic with
                | none => rw [hgt] at hg; simp at hg
                | some x => simp
              simp only [hnone, Bool.false_eq_true, if_false]
              cases hlk : lookupTopic t.processed_topics topic with
              | some m =>
                simp only [hlk, Option.getD_some]
                exact hall (topic, m) (lookupTopic_mem _ _ _ hlk)
              | none => simp [hlk]
            · exact hall p h
      | statusGood tp2 pl2 =>
        have hne := hev tp2 pl2 (List.mem_cons_self _ _)
        have heq : onStatusGood t tp2 pl2 = t := by
          unfold onStatusGood
          rw [ht]
          cases hgp : conf.status_good_payload with
          | none => rfl
          | some gp =>
            have h2 : gp ≠ pl2 := by
              intro h3
              rw [hgp, h3] at hne
              exact hne rfl
            simp [h2]
        simp only [stepEv, heq]
        exact ⟨ht, hall⟩
      | statusBad tp2 pl2 =>
        simp only [stepEv]
        cases hbp : t.conf.status_bad_payload with
        | none =>
          have heq : onStatusBad t tp2 pl2 = t := by
            unfold onStatusBad
            rw [hbp]
          rw [heq]
          exact ⟨ht, hall⟩
        | some bp =>
          by_cases h : bp = pl2
          · rw [onStatusBad_eq_of_match t tp2 pl2 (h ▸ hbp)]
            exact ⟨ht, mem_setStatus_gate t false⟩
          · have heq : onStatusBad t tp2 pl2 = t := by
              unfold onStatusBad
              rw [hbp]
              simp [h]
            rw [heq]
            exact ⟨ht, hall⟩
    have hev2 : ∀ tp2 pl2, MetricEv.statusGood tp2 pl2 ∈ rest →
        conf.status_good_payload ≠ some pl2 :=
      fun tp2 pl2 h => hev tp2 pl2 (List.mem_cons_of_mem _ h)
    rw [show runEvs t (e :: rest) = runEvs (stepEv t e) rest from rfl]
    exact ih (stepEv t e) hstep.1 hstep.2 hev2

/-- C7: with `status_good_topic` configured, no record is ever visible along
any trace in which the configured good payload has not been observed on the
status topic; when the good payload arrives, `on_status_good` opens the gate
of every held record uniformly; and when the bad payload arrives,
`on_status_bad` closes every gate and the rendered text is empty again. -/
theorem status_gating (conf : TopicToMetricConfig) (evs : List MetricEv)
    (now : Int) (t2 : TopicToMetric) (tp pl : String) :
    (conf.status_good_topic.isSome = true →
     (∀ tp2 pl2, MetricEv.statusGood tp2 pl2 ∈ evs →
        conf.status_good_payload ≠ some pl2) →
     renderMetricText (runEvs (initTTM conf) evs) now = "") ∧
    (t2.conf.status_good_payload = some pl →
     ∀ p ∈ (onStatusGood t2 tp pl).processed_topics, p.2.status_is_good = true) ∧
    (t2.conf.status_bad_payload = some pl →
     renderMetricText (onStatusBad t2 tp pl) now = "" ∧
     ∀ p ∈ (onStatusBad t2 tp pl).processed_topics, p.2.status_is_good = false) := by
  refine ⟨?_, ?_, ?_⟩
  · intro hg hev
    have h := gate_false_preserved conf hg evs (initTTM conf) rfl
      (by intro p hp; simp [initTTM] at hp) hev
    rw [renderMetricText_eq_empty_iff]
    intro p hp
    simp [survives, h.2 p hp]
  · intro h
    rw [onStatusGood_eq_of_match t2 tp pl h]
    exact mem_setStatus_gate t2 true
  · intro h
    rw [onStatusBad_eq_of_match t2 tp pl h]
    constructor
    · rw [renderMetricText_eq_empty_iff]
      intro p hp
      simp [survives, mem_setStatus_gate t2 false p hp]
    · exact mem_setStatus_gate t2 false

/-- C7 witness: with good payload `on` configured, a Transformer that has
received one valid data message renders nothing, and receiving `on` on the
status topic opens the gate of its record. -/
theorem status_gating_witness :
    renderMetricText (runEvs (initTTM exConfGated) [MetricEv.msg "t" "1" 0]) 0 = "" ∧
    (∀ p ∈ (onStatusGood (runEvs (initTTM exConfGated) [MetricEv.msg "t" "1" 0])
        "s" "on").processed_topics,
       p.2.status_is_good = true) := by
  constructor
  · exact (status_gating exConfGated [MetricEv.msg "t" "1" 0] 0
        (initTTM exConf) "s" "on").1 rfl (by intro tp2 pl2 h; simp at h)
  · exact (status_gating exConfGated [] 0
        (runEvs (initTTM exConfGated) [MetricEv.msg "t" "1" 0]) "s" "on").2.1
      (by decide)

end MqttExporter

namespace MqttExporter

theorem cmdInv_step (c : Command) (w : CmdWorld) (e : CmdEv)
    (h : cmdInv w) : cmdInv (cmdStep c w e) := by
  cases e with
  | msg topic payload =>
    simp only [cmdStep, cmdOnMessage]
    by_cases hm : (pyMatchAt c.payload payload.data 0).isSome = true
    · simp only [if_pos hm]
      unfold runSub
      cases hs : w.st.subprocess with
      | none =>
        have hrun : w.running = [] := by
          unfold cmdInv at h
          rw [hs] at h
          exact h
        simp [cmdInv, hrun]
      | some pid =>
        by_cases ha : w.running.contains pid = true
        · simp only [ha, if_true]
          exact h
        · have hrun : w.running = [] := by
            unfold cmdInv at h
            rw [hs] at h
            rcases h with h | h
            · exact h
            · rw [h] at ha
              simp at ha
          simp only [ha, if_false, hrun]
          simp only [cmdInv]
          right
          rfl
    · simp only [if_neg hm]
      exact h
  | procExit p =>
    simp only [cmdStep]
    unfold cmdInv at h ⊢
    cases hs : w.st.subprocess with
    | none =>
      rw [hs] at h
      simp [h]
    | some q =>
      rw [hs] at h
      rcases h with h | h
      · simp [h]
      · rw [h]
        by_cases hpq : q = p
        · subst hpq
          simp [List.erase_cons]
        · right
          simp [List.erase_cons, hpq]

theorem cmdInv_run (c : Command) (evs : List CmdEv) :
    ∀ w : CmdWorld, cmdInv w → cmdInv (evs.foldl (cmdStep c) w) := by
  induction evs with
  | nil => intro w h; exact h
  | cons e rest ih =>
    intro w h
    exact ih (cmdStep c w e) (cmdInv_step c w e h)

/-- C8: per Command instance, at most one spawned child process is in
flight at any time along any trace of messages and process exits; a trigger
arriving while the stored process is still running (`poll()` returns
`None`) is dropped without spawning or changing state; and a matching
trigger arriving when no process was ever started, or when the previous one
has exited, spawns exactly one new process (the handler returns
immediately, without waiting). -/
theorem command_single_flight (c : Command) :
    (∀ evs : List CmdEv, (cmdRun c evs).running.length ≤ 1) ∧
    (∀ (st : CommandState) (alive : Nat → Bool) (freshPid : Nat)
       (tp pl : String) (pid : Nat),
       st.subprocess = some pid → alive pid = true →
       cmdOnMessage c st alive freshPid tp pl = (st, false)) ∧
    (∀ (st : CommandState) (alive : Nat → Bool) (freshPid : Nat)
       (tp pl : String),
       (pyMatchAt c.payload pl.data 0).isSome = true →
       (st.subprocess = none ∨
        ∃ pid, st.subprocess = some pid ∧ alive pid = false) →
       cmdOnMessage c st alive freshPid tp pl =
         ({ subprocess := some freshPid }, true)) := by
  refine ⟨?_, ?_, ?_⟩
  · intro evs
    have h := cmdInv_run c evs {} (by simp [cmdInv])
    unfold cmdRun
    unfold cmdInv at h
    cases hs : (evs.foldl (cmdStep c) {}).st.subprocess with
    | none =>
      rw [hs] at h
      simp [h]
    | some q =>
      rw [hs] at h
      rcases h with h | h <;> simp [h]
  · intro st alive freshPid tp pl pid hst ha
    unfold cmdOnMessage
    by_cases hm : (pyMatchAt c.payload pl.data 0).isSome = true
    · simp only [if_pos hm]
      unfold runSub
      rw [hst]
      simp [ha]
    · simp only [if_neg hm]
  · intro st alive freshPid tp pl hm hprev
    unfold cmdOnMessage
    simp only [if_pos hm]
    unfold runSub
    rcases hprev with h | ⟨pid, hst, ha⟩
    · rw [h]
    · rw [hst]
      simp [ha]

/-- C8 witness: the invariant on a concrete trace (two rapid matching
messages, an exit, a third message), a drop while the stored process is
alive, and a spawn when the stored process has exited. -/
theorem command_single_flight_witness :
    (cmdRun { topic := "t", payload := .star .anyc, cmd := "c" }
       [CmdEv.msg "t" "x", CmdEv.msg "t" "y", CmdEv.procExit 0,
        CmdEv.msg "t" "z"]).running.length ≤ 1 ∧
    cmdOnMessage { topic := "t", payload := .star .anyc, cmd := "c" }
        { subprocess := some 0 } (fun _ => true) 1 "t" "x" =
      ({ subprocess := some 0 }, false) ∧
    cmdOnMessage { topic := "t", payload := .star .anyc, cmd := "c" }
        { subprocess := some 0 } (fun _ => false) 1 "t" "x" =
      ({ subprocess := some 1 }, true) := by
  refine ⟨?_, ?_, ?_⟩
  · exact (command_single_flight _).1 _
  · exact (command_single_flight _).2.1 _ _ 1 "t" "x" 0 rfl rfl
  · exact (command_single_flight _).2.2 _ _ 1 "t" "x" (by decide)
      (Or.inr ⟨0, rfl, rfl⟩)

end MqttExporter

namespace MqttExporter

theorem pySearchFrom_found (r : Regex) (s : List Char) (pos c : Nat)
    (g : Groups) (h : ¬ pos > s.length)
    (hm : pyMatchAt r s pos = some (c, g)) :
    pySearchFrom r s pos = some (pos, c, g) := by
  unfold pySearchFrom
  rw [show s.length + 1 - pos = (s.length - pos) + 1 from by omega]
  unfold pySearchFromAux
  simp [h, hm]

theorem pySearchFrom_none_at_end (r : Regex) (s : List Char)
    (hm : pyMatchAt r s s.length = none) :
    pySearchFrom r s s.length = none := by
  unfold pySearchFrom
  rw [show s.length + 1 - s.length = 0 + 1 from by omega]
  unfold pySearchFromAux
  simp [hm, pySearchFromAux]

theorem pySubFrom_step_none (p : Regex) (tpl : String) (d : List Char)
    (pos f : Nat) (h : pySearchFrom p d pos = none) :
    pySubFrom p tpl d pos (f + 1) = String.mk (d.drop pos) := by
  unfold pySubFrom
  rw [h]

theorem pySub_full_match (p : Regex) (tpl : String) (d : List Char)
    (g : Groups) (h0 : pyMatchAt p d 0 = some (d.length, g))
    (hend : pyMatchAt p d d.length = none) :
    pySubFrom p tpl d 0 (d.length + 2) = pyExpand tpl g := by
  have hlen : d.length ≠ 0 := by
    intro hz
    rw [hz] at hend
    rw [h0] at hend
    exact Option.noConfusion hend
  have hs0 : pySearchFrom p d 0 = some (0, d.length, g) :=
    pySearchFrom_found p d 0 d.length g (by omega) h0
  have hsL : pySearchFrom p d d.length = none := pySearchFrom_none_at_end p d hend
  rw [show d.length + 2 = (d.length + 1) + 1 from rfl]
  unfold pySubFrom
  rw [hs0]
  simp only [List.drop_zero, Nat.sub_zero, List.take_zero, Nat.zero_add]
  rw [if_neg hlen]
  rw [pySubFrom_step_none p tpl d d.length d.length hsL]
  simp [string_mk_nil, List.drop_length]

/-- C2 counterexample: for pattern `a`, template `X` and text `ab`, the
pattern matches at the start, but `match_to_template` returns `Xb` — the
trailing unmatched text is carried into the output by `re.sub` — not the
bare expanded template `X` that the claim requires. -/
theorem match_to_template_counterexample :
    matchToTemplate (.char 'a') "X" "ab" = some "Xb" ∧
    matchToTemplate (.char 'a') "X" "ab" ≠ some "X" := by decide

/-- C2 (amended): when the pattern does not match at the start of the text
the result is the no-match value (`none`, not an error); when it does
match, the result is the text with every non-overlapping occurrence of the
pattern replaced by the expanded template, so trailing unmatched text is
carried into the output; in particular, whenever the prefix match consumes
the entire text and the pattern cannot match again at the end position, the
result is exactly the template with each backreference replaced by its
captured group, and nothing else. -/
theorem match_to_template_amended :
    (∀ (p : Regex) (tpl s : String),
       pyMatchAt p s.data 0 = none → matchToTemplate p tpl s = none) ∧
    (∀ (p : Regex) (tpl s : String) (c : Nat) (g : Groups),
       pyMatchAt p s.data 0 = some (c, g) → c = s.data.length →
       pyMatchAt p s.data s.data.length = none →
       matchToTemplate p tpl s = some (pyExpand tpl g)) := by
  constructor
  · intro p tpl s h
    unfold matchToTemplate
    rw [h]
  · intro p tpl s c g h0 hc hend
    subst hc
    unfold matchToTemplate
    rw [h0]
    unfold pySub
    rw [pySub_full_match p tpl s.data g h0 hend]

/-- C2 witness: pattern `b` does not match `ab` at the start and yields
`none`; pattern `a` consumes all of `a` and yields exactly the expanded
template. -/
theorem match_to_template_amended_witness :
    matchToTemplate (.char 'b') "X" "ab" = none ∧
    matchToTemplate (.char 'a') "X" "a" = some (pyExpand "X" []) := by
  constructor
  · exact match_to_template_amended.1 (.char 'b') "X" "ab" (by decide)
  · exact match_to_template_amended.2 (.char 'a') "X" "a" 1 [] (by decide)
      (by decide) (by decide)

end MqttExporter
